import Mathlib

/-!
Verification of the TaskFlow backend (Express + Mongoose task manager).

The development shallowly embeds the request handlers of
src/taskflow/routes/tasks.js, the auth router and token helpers of
src/ppt_structure.js (auth.js part), and the Mongoose schemas of
src/taskflow/server.js (models/User.js and models/Task.js parts).

Modelling conventions:
* The Mongo document store is a Lean list; a query is a filter over it and
  findOne returns the first match, mirroring natural order.
* Dates are epoch milliseconds (Nat); token expiry follows the jsonwebtoken
  second-based exp claim, 7 days being 604800.
* JavaScript numbers that can be NaN are Option Int, none standing for a
  non-integer value (NaN and infinities are not distinguished).
* The HMAC signature of a JWT is abstracted as the pair of the signing
  secret and the payload; a signature is valid exactly when it equals the
  one recomputed from the payload, which is the contract jwt.verify
  provides. A structurally malformed token is a separate constructor.
* bcrypt hashes are abstracted as a salt paired with the hashed password;
  bcrypt.compare holds exactly on the original password.
* Mongoose findOneAndUpdate does not run pre-save middleware, so the update
  route applies its field assignments directly; the pre-save hook is
  modelled separately (completedAtSaveHook) and is only reached by save().
* The project connects with the Mongoose 5 era options useNewUrlParser and
  useUnifiedTopology; in that line, schema setters (lowercase, trim) are
  not applied to query filters, so User.findOne({email}) compares the raw
  request string against the stored (normalized) emails.
-/

namespace TaskFlow

/-! JavaScript string and number primitives used by the routes. -/

def isJsWhitespace (c : Char) : Bool :=
  c = ' ' || c = '\t' || c = '\n' || c = '\r'

/-- ASCII model of String.prototype.trim. -/
def jsTrim (s : String) : String :=
  String.mk (((s.data.dropWhile isJsWhitespace).reverse.dropWhile isJsWhitespace).reverse)

def lowerChar (c : Char) : Char :=
  if 'A' ≤ c ∧ c ≤ 'Z' then Char.ofNat (c.toNat + 32) else c

/-- ASCII model of String.prototype.toLowerCase. -/
def jsLower (s : String) : String :=
  String.mk (s.data.map lowerChar)

def decDigitVal (c : Char) : Option Nat :=
  if c.isDigit then some (c.toNat - 48) else none

def hexDigitVal (c : Char) : Option Nat :=
  if c.isDigit then some (c.toNat - 48)
  else if 'a' ≤ c ∧ c ≤ 'f' then some (c.toNat - 87)
  else if 'A' ≤ c ∧ c ≤ 'F' then some (c.toNat - 55)
  else none

/-- Model of parseInt(s) with no radix argument: skip leading whitespace,
optional sign, then a 0x/0X prefix selects base 16, otherwise base 10;
the longest run of digits is converted and an empty run is NaN (none). -/
def jsParseInt (s : String) : Option Int :=
  let cs := s.data.dropWhile isJsWhitespace
  let sgn : Int := match cs with
    | '-' :: _ => -1
    | _ => 1
  let cs2 := match cs with
    | '-' :: rest => rest
    | '+' :: rest => rest
    | _ => cs
  let hex : Bool := match cs2 with
    | '0' :: 'x' :: _ => true
    | '0' :: 'X' :: _ => true
    | _ => false
  let cs3 := match cs2 with
    | '0' :: 'x' :: rest => rest
    | '0' :: 'X' :: rest => rest
    | _ => cs2
  let digitVal := if hex then hexDigitVal else decDigitVal
  let base : Nat := if hex then 16 else 10
  let ds := cs3.takeWhile (fun c => (digitVal c).isSome)
  if ds.isEmpty then none
  else some (sgn * ((ds.foldl (fun a c => a * base + (digitVal c).getD 0) 0 : Nat) : Int))

/-- NaN-propagating subtraction on JavaScript numbers. -/
def jsSub : Option Int → Option Int → Option Int
  | some a, some b => some (a - b)
  | _, _ => none

/-- NaN-propagating multiplication on JavaScript numbers. -/
def jsMul : Option Int → Option Int → Option Int
  | some a, some b => some (a * b)
  | _, _ => none

/-! The email regexp of the register route and of the user schema,
given by its language: the pattern is anchored on both sides, contains
exactly one at sign, its local part and domain head are words of
[A-Za-z0-9_] separated by single dots or hyphens, and the domain ends in
one or more groups of a dot followed by two or three word characters. -/

def isWordChar (c : Char) : Bool :=
  c.isAlphanum || c = '_'

def nameSeqAux : List Char → Bool
  | [] => true
  | c :: rest =>
    if isWordChar c then nameSeqAux rest
    else if c = '.' ∨ c = '-' then
      match rest with
      | [] => false
      | d :: rest2 => isWordChar d && nameSeqAux rest2
    else false

def nameSeq : List Char → Bool
  | [] => false
  | c :: rest => isWordChar c && nameSeqAux rest

def tldBlocksF : Nat → List Char → Bool
  | 0, _ => false
  | fuel + 1, l =>
    match l with
    | '.' :: a :: b :: rest =>
      isWordChar a && isWordChar b &&
        (match rest with
         | [] => true
         | c :: rest2 =>
           tldBlocksF fuel rest || (isWordChar c && (rest2.isEmpty || tldBlocksF fuel rest2)))
    | _ => false

/-- Decomposition into one or more groups of a dot followed by two or three
word characters; the fuel argument only bounds the recursion depth and is
always sufficient at the list length. -/
def tldBlocks (l : List Char) : Bool :=
  tldBlocksF l.length l

def domainOk (l : List Char) : Bool :=
  (List.range (l.length + 1)).any (fun i => nameSeq (l.take i) && tldBlocks (l.drop i))

def breakAt (sep : Char) : List Char → Option (List Char × List Char)
  | [] => none
  | c :: rest =>
    if c = sep then some ([], rest)
    else match breakAt sep rest with
      | none => none
      | some (l, r) => some (c :: l, r)

def emailOk (s : String) : Bool :=
  match breakAt '@' s.data with
  | none => false
  | some (lp, dom) =>
    if dom.contains '@' then false
    else nameSeq lp && domainOk dom

/-! Data model: the Mongoose schemas of models/User.js and models/Task.js. -/

/-- Abstraction of a bcrypt hash: the salt paired with the hashed input. -/
structure PwHash where
  salt : Nat
  pw : String
deriving Repr, DecidableEq

def comparePassword (h : PwHash) (candidate : String) : Bool :=
  decide (h.pw = candidate)

structure User where
  _id : String
  email : String
  password : PwHash
  name : String
  subscription : String
  isActive : Bool
  createdAt : Nat
  updatedAt : Nat
deriving Repr, DecidableEq

structure Task where
  _id : String
  userId : String
  title : String
  description : String
  category : String
  priority : Int
  dueDate : Option Nat
  completed : Bool
  completedAt : Option Nat
  tags : List String
  createdAt : Nat
  updatedAt : Nat
deriving Repr, DecidableEq

abbrev Store := List Task

def validCategory (c : String) : Bool :=
  ["업무", "학습", "개인", "건강", "쇼핑", "기타"].contains c

/-- Document validators of the task schema, run on save: required and
maxlength 100 on title, maxlength 500 on description, the category enum,
priority between 1 and 5, due date not in the past, tags at most 20
characters each. -/
def validateTaskDoc (t : Task) (now : Nat) : Bool :=
  decide (t.title ≠ "" ∧ t.title.length ≤ 100) &&
  decide (t.description.length ≤ 500) &&
  validCategory t.category &&
  decide (1 ≤ t.priority ∧ t.priority ≤ 5) &&
  (match t.dueDate with | none => true | some d => decide (now ≤ d)) &&
  t.tags.all (fun s => decide (s.length ≤ 20))

/-- Pre-save middleware of the task schema: when completed was modified, a
transition to true stamps completedAt with the current time and a
transition to false clears it. Only save() triggers it; findOneAndUpdate
does not. -/
def completedAtSaveHook (modifiedCompleted : Bool) (now : Nat) (t : Task) : Task :=
  let t1 :=
    if modifiedCompleted ∧ t.completed = true ∧ t.completedAt = none then
      { t with completedAt := some now }
    else t
  if modifiedCompleted ∧ t1.completed = false ∧ t1.completedAt ≠ none then
    { t1 with completedAt := none }
  else t1

/-! Token service: generateToken of routes/auth.js and the jsonwebtoken
sign and verify pair it delegates to. -/

structure JwtPayload where
  id : String
  email : String
  exp : Nat
deriving Repr, DecidableEq

structure JwtSig where
  secret : String
  payload : JwtPayload
deriving Repr, DecidableEq

structure JwtToken where
  payload : JwtPayload
  sig : JwtSig
deriving Repr, DecidableEq

inductive JwtWire where
  | token (t : JwtToken)
  | malformed (raw : String)
deriving Repr, DecidableEq

def jwtSign (secret : String) (p : JwtPayload) : JwtSig :=
  { secret := secret, payload := p }

inductive JwtResult where
  | ok (id email : String)
  | invalidToken
  | expiredToken
deriving Repr, DecidableEq

/-- jwt.verify: a malformed token or a signature that does not match the
one recomputed with the secret raises JsonWebTokenError; with a valid
signature, an exp claim at or before now raises TokenExpiredError. -/
def jwtVerify (w : JwtWire) (secret : String) (now : Nat) : JwtResult :=
  match w with
  | .malformed _ => .invalidToken
  | .token t =>
    if t.sig ≠ jwtSign secret t.payload then .invalidToken
    else if t.payload.exp ≤ now then .expiredToken
    else .ok t.payload.id t.payload.email

/-- generateToken of routes/auth.js: signs the user id and email with the
process secret, expiring in 7 days (jsonwebtoken expiresIn second units). -/
def generateToken (u : User) (secret : String) (now : Nat) : JwtToken :=
  let p : JwtPayload := { id := u._id, email := u.email, exp := now + 604800 }
  { payload := p, sig := jwtSign secret p }

inductive AuthHeader where
  | missing
  | notBearer (raw : String)
  | bearer (w : JwtWire)
deriving Repr, DecidableEq

inductive AuthOutcome where
  | reject (status : Nat) (message : String)
  | proceed (id email : String)
deriving Repr, DecidableEq

/-- authenticateToken of routes/tasks.js: a missing header or one without
the Bearer scheme is rejected 401; an invalid token maps to 401 with the
invalid-token message and an expired one to 401 with the expired message;
on success the decoded id and email become req.user with no user lookup. -/
def authenticateToken (h : AuthHeader) (secret : String) (now : Nat) : AuthOutcome :=
  match h with
  | .missing => .reject 401 "인증 토큰이 필요합니다."
  | .notBearer _ => .reject 401 "인증 토큰이 필요합니다."
  | .bearer w =>
    match jwtVerify w secret now with
    | .ok i e => .proceed i e
    | .invalidToken => .reject 401 "유효하지 않은 토큰입니다."
    | .expiredToken => .reject 401 "토큰이 만료되었습니다."

/-! Auth routes of routes/auth.js: register and login. The response data
payload (user object and token) is not examined by any property below, so
responses carry the envelope fields only; the store is returned alongside
to capture persistence. -/

structure AuthResp where
  status : Nat
  error : Bool
  message : String
deriving Repr, DecidableEq

/-- Replacement of the first element satisfying p, as a single-document
update against the store. -/
def updateFirst {α : Type} (p : α → Bool) (f : α → α) : List α → List α
  | [] => []
  | x :: xs => if p x then f x :: xs else x :: updateFirst p f xs

/-- Document validators of the user schema that can still fail once the
route checks have passed: trimmed name at most 50 characters, normalized
email matching the schema regexp. -/
def validateUserDoc (u : User) : Bool :=
  decide (u.name ≠ "" ∧ u.name.length ≤ 50) && emailOk u.email

/-- POST /api/auth/register. Checks run in source order: presence of the
three fields, the email regexp on the raw string, password length, then
User.findOne({email}) with the raw request email against the stored
(normalized) emails. Only then is the new user built with the email
lowercased and trimmed; a schema validation failure yields 400, and the
unique index on email turns a normalized duplicate that survived the raw
findOne into a duplicate-key error, which the local catch (matching only
ValidationError) reports as 500. -/
def postRegister (store : List User) (name email password : Option String)
    (now : Nat) (newId : String) (salt : Nat) : AuthResp × List User :=
  match name, email, password with
  | some nm, some em, some pw =>
    if nm = "" ∨ em = "" ∨ pw = "" then
      ({ status := 400, error := true, message := "이름, 이메일, 비밀번호는 필수 항목입니다." }, store)
    else if emailOk em = false then
      ({ status := 400, error := true, message := "유효한 이메일 주소를 입력해주세요." }, store)
    else if pw.length < 6 then
      ({ status := 400, error := true, message := "비밀번호는 최소 6자 이상이어야 합니다." }, store)
    else if (store.find? (fun u => decide (u.email = em))).isSome then
      ({ status := 409, error := true, message := "이미 가입된 이메일 주소입니다." }, store)
    else
      let newUser : User :=
        { _id := newId, email := jsTrim (jsLower em), password := { salt := salt, pw := pw },
          name := jsTrim nm, subscription := "free", isActive := true,
          createdAt := now, updatedAt := now }
      if validateUserDoc newUser = false then
        ({ status := 400, error := true, message := "유효성 검사 오류" }, store)
      else if store.any (fun u => decide (u.email = newUser.email)) then
        ({ status := 500, error := true, message := "서버 내부 오류가 발생했습니다." }, store)
      else
        ({ status := 201, error := false, message := "회원가입이 성공적으로 완료되었습니다." },
         store ++ [newUser])
  | _, _, _ =>
    ({ status := 400, error := true, message := "이름, 이메일, 비밀번호는 필수 항목입니다." }, store)

/-- POST /api/auth/login. Lookup is by the lowercased and trimmed email;
an unknown email answers 401 with the bad-credentials message, then the
isActive flag is tested before the password, and a password mismatch
answers 401 with the same bad-credentials message; success refreshes
updatedAt on the stored user. -/
def postLogin (store : List User) (email password : Option String)
    (now : Nat) : AuthResp × List User :=
  match email, password with
  | some em, some pw =>
    if em = "" ∨ pw = "" then
      ({ status := 400, error := true, message := "이메일과 비밀번호는 필수 항목입니다." }, store)
    else
      match store.find? (fun u => decide (u.email = jsTrim (jsLower em))) with
      | none =>
        ({ status := 401, error := true, message := "이메일 또는 비밀번호가 올바르지 않습니다." }, store)
      | some u =>
        if u.isActive = false then
          ({ status := 401, error := true, message := "비활성화된 계정입니다. 관리자에게 문의해주세요." }, store)
        else if comparePassword u.password pw = false then
          ({ status := 401, error := true, message := "이메일 또는 비밀번호가 올바르지 않습니다." }, store)
        else
          ({ status := 200, error := false, message := "로그인에 성공했습니다." },
           updateFirst (fun v => decide (v.email = jsTrim (jsLower em)))
             (fun v => { v with updatedAt := now }) store)
  | _, _ =>
    ({ status := 400, error := true, message := "이메일과 비밀번호는 필수 항목입니다." }, store)

/-! Task routes of routes/tasks.js. All handlers receive the authenticated
user id attached by the middleware. -/

def isHexChar (c : Char) : Bool :=
  c.isDigit || ('a' ≤ c && c ≤ 'f') || ('A' ≤ c && c ≤ 'F')

/-- The ObjectId shape test used by the id routes: 24 hex characters. -/
def isValidObjectId (s : String) : Bool :=
  decide (s.length = 24) && s.data.all isHexChar

structure TaskResp where
  status : Nat
  error : Bool
  message : String
  task : Option Task
deriving Repr, DecidableEq

def badIdResp : TaskResp :=
  { status := 400, error := true, message := "유효하지 않은 할 일 ID입니다.", task := none }

def taskNotFoundResp : TaskResp :=
  { status := 404, error := true, message := "할 일을 찾을 수 없습니다.", task := none }

def titleRequiredResp : TaskResp :=
  { status := 400, error := true, message := "할 일 제목은 필수 항목입니다.", task := none }

def priorityRangeResp : TaskResp :=
  { status := 400, error := true, message := "우선순위는 1부터 5까지의 숫자여야 합니다.", task := none }

/-- ValidationError branch of the catch blocks; the comma-joined validator
message text is not itself modelled. -/
def validationErrorResp : TaskResp :=
  { status := 400, error := true, message := "유효성 검사 오류", task := none }

/-- Guard priority && (priority < 1 || priority > 5) of the create and
update handlers: a present, truthy (nonzero) priority outside 1..5. -/
def priorityRangeBad (p : Option Int) : Bool :=
  match p with
  | some v => decide (¬ v = 0 ∧ (v < 1 ∨ 5 < v))
  | none => false

/-- Fields a create request body may carry. userId, completed and
completedAt can appear in the JSON, but the handler never destructures
them. dueDate models the parsed value of a provided truthy dueDate. -/
structure CreateBody where
  title : Option String
  description : Option String
  category : Option String
  priority : Option Int
  dueDate : Option Nat
  tags : Option (List String)
  userId : Option String
  completed : Option Bool
  completedAt : Option Nat
deriving Repr, DecidableEq

/-- The new Task document the create handler constructs: owner from the
authenticated id, the six destructured fields with their fallbacks, schema
defaults for completed and completedAt (the pre-save hook leaves them
untouched because completed was not modified), timestamps from the
clock. -/
def builtTask (uid : String) (body : CreateBody) (now : Nat) (newId : String) : Task :=
  { _id := newId, userId := uid,
    title := jsTrim (body.title.getD ""),
    description := match body.description with
      | none => ""
      | some d => if d = "" then "" else jsTrim d,
    category := match body.category with
      | none => "개인"
      | some c => if c = "" then "개인" else c,
    priority := match body.priority with
      | none => 3
      | some p => if p = 0 then 3 else p,
    dueDate := body.dueDate,
    completed := false, completedAt := none,
    tags := body.tags.getD [],
    createdAt := now, updatedAt := now }

/-- POST /api/tasks: requires a title that is non-empty after trim, bounds
a truthy priority, validates the document and saves it. -/
def postTasks (store : Store) (uid : String) (body : CreateBody)
    (now : Nat) (newId : String) : TaskResp × Store :=
  if (match body.title with | none => true | some t => jsTrim t = "") then
    (titleRequiredResp, store)
  else if priorityRangeBad body.priority then
    (priorityRangeResp, store)
  else if validateTaskDoc (builtTask uid body now newId) now = false then
    (validationErrorResp, store)
  else
    ({ status := 201, error := false, message := "할 일이 성공적으로 생성되었습니다.",
       task := some (builtTask uid body now newId) },
     store ++ [builtTask uid body now newId])

/-- GET /api/tasks/:id. -/
def getTaskById (store : Store) (uid taskId : String) : TaskResp :=
  if isValidObjectId taskId = false then badIdResp
  else
    match store.find? (fun t => decide (t._id = taskId ∧ t.userId = uid)) with
    | none => taskNotFoundResp
    | some t =>
      { status := 200, error := false, message := "할 일 조회에 성공했습니다.", task := some t }

/-- Fields a PUT body may carry. dueDate distinguishes absent (none), a
provided falsy value (some none, whose undefined assignment the driver
strips from the update), and a provided date. userId, completedAt and
createdAt can appear in the JSON but are never destructured. -/
structure UpdateBody where
  title : Option String
  description : Option String
  category : Option String
  priority : Option Int
  dueDate : Option (Option Nat)
  completed : Option Bool
  tags : Option (List String)
  userId : Option String
  completedAt : Option Nat
  createdAt : Option Nat
deriving Repr, DecidableEq

/-- The updateFields object the PUT handler assembles. -/
structure UpdateFields where
  title : Option String
  description : Option String
  category : Option String
  priority : Option Int
  dueDate : Option Nat
  completed : Option Bool
  tags : Option (List String)
deriving Repr, DecidableEq

def descField : Option String → Option String
  | none => none
  | some d => some (if d = "" then "" else jsTrim d)

def dueField : Option (Option Nat) → Option Nat
  | some (some d) => some d
  | _ => none

def ufOf (b : UpdateBody) (ttl : Option String) : UpdateFields :=
  { title := ttl, description := descField b.description, category := b.category,
    priority := b.priority, dueDate := dueField b.dueDate,
    completed := b.completed, tags := b.tags }

/-- Assembly of updateFields, returning none on the early 400 for a title
that is present but empty after trim. -/
def buildUpdateFields (b : UpdateBody) : Option UpdateFields :=
  match b.title with
  | some ttl => if jsTrim ttl = "" then none else some (ufOf b (some (jsTrim ttl)))
  | none => some (ufOf b none)

/-- Update validators run by runValidators on the supplied paths. -/
def validateUpdateFields (uf : UpdateFields) (now : Nat) : Bool :=
  (match uf.title with | none => true | some s => decide (s ≠ "" ∧ s.length ≤ 100)) &&
  (match uf.description with | none => true | some s => decide (s.length ≤ 500)) &&
  (match uf.category with | none => true | some c => validCategory c) &&
  (match uf.priority with | none => true | some p => decide (1 ≤ p ∧ p ≤ 5)) &&
  (match uf.dueDate with | none => true | some d => decide (now ≤ d)) &&
  (match uf.tags with | none => true | some ts => ts.all (fun s => decide (s.length ≤ 20)))

/-- Application of updateFields to the matched document. completedAt is
untouched: findOneAndUpdate runs no save middleware, so the hook that
maintains it never fires on this path; updatedAt is advanced by the
timestamps schema option. -/
def applyUpdateFields (uf : UpdateFields) (now : Nat) (t : Task) : Task :=
  { t with
    title := uf.title.getD t.title,
    description := uf.description.getD t.description,
    category := uf.category.getD t.category,
    priority := uf.priority.getD t.priority,
    dueDate := match uf.dueDate with | some d => some d | none => t.dueDate,
    completed := uf.completed.getD t.completed,
    tags := uf.tags.getD t.tags,
    updatedAt := now }

/-- All early checks of the PUT handler plus the update validators, i.e.
everything that must pass before the ownership-scoped lookup decides
between 200 and 404. -/
def putChecksOk (body : UpdateBody) (now : Nat) : Bool :=
  !(priorityRangeBad body.priority) &&
    (match buildUpdateFields body with
     | none => false
     | some uf => validateUpdateFields uf now)

/-- PUT /api/tasks/:id: id shape, the truthy-priority guard, updateFields
assembly (400 on an empty trimmed title), update validators, then
findOneAndUpdate scoped to the authenticated owner, 404 when nothing
matches. -/
def putTaskById (store : Store) (uid taskId : String) (body : UpdateBody)
    (now : Nat) : TaskResp × Store :=
  if isValidObjectId taskId = false then (badIdResp, store)
  else if priorityRangeBad body.priority then (priorityRangeResp, store)
  else
    match buildUpdateFields body with
    | none => (titleRequiredResp, store)
    | some uf =>
      if validateUpdateFields uf now = false then (validationErrorResp, store)
      else
        match store.find? (fun t => decide (t._id = taskId ∧ t.userId = uid)) with
        | none => (taskNotFoundResp, store)
        | some t =>
          ({ status := 200, error := false, message := "할 일이 성공적으로 수정되었습니다.",
             task := some (applyUpdateFields uf now t) },
           updateFirst (fun t2 => decide (t2._id = taskId ∧ t2.userId = uid))
             (applyUpdateFields uf now) store)

structure DelResp where
  status : Nat
  error : Bool
  message : String
  task : Option Task
  deletedCount : Option Nat
deriving Repr, DecidableEq

/-- Removal of the first element satisfying p (findOneAndDelete). -/
def removeFirst {α : Type} (p : α → Bool) : List α → List α
  | [] => []
  | x :: xs => if p x then xs else x :: removeFirst p xs

/-- DELETE /api/tasks/:id. -/
def deleteTaskById (store : Store) (uid taskId : String) : DelResp × Store :=
  if isValidObjectId taskId = false then
    ({ status := 400, error := true, message := "유효하지 않은 할 일 ID입니다.",
       task := none, deletedCount := none }, store)
  else
    match store.find? (fun t => decide (t._id = taskId ∧ t.userId = uid)) with
    | none =>
      ({ status := 404, error := true, message := "할 일을 찾을 수 없습니다.",
         task := none, deletedCount := none }, store)
    | some t =>
      ({ status := 200, error := false, message := "할 일이 성공적으로 삭제되었습니다.",
         task := some t, deletedCount := none },
       removeFirst (fun t2 => decide (t2._id = taskId ∧ t2.userId = uid)) store)

/-- DELETE /api/tasks/completed handler: deleteMany over the owner and
completed=true, answering the count removed. -/
def deleteCompletedTasks (store : Store) (uid : String) : DelResp × Store :=
  ({ status := 200, error := false, message := "완료된 할 일들이 성공적으로 삭제되었습니다.",
     task := none,
     deletedCount := some (store.filter (fun t => decide (t.userId = uid ∧ t.completed = true))).length },
   store.filter (fun t => decide (¬ (t.userId = uid ∧ t.completed = true))))

/-- Express tries DELETE routes in registration order; in routes/tasks.js
the pattern /:id is registered at line 448 and the literal /completed at
line 498. The :id parameter matches any non-empty path segment, so the
second test is reached only when the first fails. -/
def dispatchTasksDelete (seg : String) (uid : String) (store : Store) :
    Option (DelResp × Store) :=
  if seg ≠ "" then some (deleteTaskById store uid seg)
  else if seg = "completed" then some (deleteCompletedTasks store uid)
  else none

/-! GET /api/tasks: filter construction, sorting, pagination. -/

/-- Query string of a list request; absent parameters are none. dueDate
models the Date-parsed value of a provided truthy dueDate parameter. -/
structure ListQuery where
  completed : Option String
  category : Option String
  priority : Option String
  dueDate : Option Nat
  page : Option String
  limit : Option String
  sortBy : Option String
  sortOrder : Option String
deriving Repr, DecidableEq

/-- The find filter the handler assembles: always scoped to the owner;
completed compares the parameter against the literal true; a truthy
category matches exactly; a truthy priority is parseInt-ed (a NaN value
matches no document); a provided dueDate selects the day-long window. -/
def matchesQuery (uid : String) (q : ListQuery) (t : Task) : Bool :=
  decide (t.userId = uid) &&
  (match q.completed with
   | none => true
   | some s => decide (t.completed = (s = "true"))) &&
  (match q.category with
   | none => true
   | some c => if c = "" then true else decide (t.category = c)) &&
  (match q.priority with
   | none => true
   | some s =>
     if s = "" then true
     else match jsParseInt s with
       | some n => decide (t.priority = n)
       | none => false) &&
  (match q.dueDate with
   | none => true
   | some d =>
     match t.dueDate with
     | some td => decide (d ≤ td ∧ td < d + 86400000)
     | none => false)

/-- Primary comparison for a sortBy field name; a name outside the stored
fields orders nothing. Absent dueDate values compare as the epoch. -/
def fieldCmp (field : String) (a b : Task) : Ordering :=
  if field = "title" then compare a.title b.title
  else if field = "description" then compare a.description b.description
  else if field = "category" then compare a.category b.category
  else if field = "priority" then compare a.priority b.priority
  else if field = "dueDate" then compare (a.dueDate.getD 0) (b.dueDate.getD 0)
  else if field = "completed" then
    compare (if a.completed then (1 : Nat) else 0) (if b.completed then 1 else 0)
  else if field = "updatedAt" then compare a.updatedAt b.updatedAt
  else Ordering.eq

/-- Effective sort of an executed find: the route sets {sortBy: dir} and
the pre-find hook of the schema then merges {createdAt: -1}, overriding
the direction when sortBy is createdAt itself and otherwise appending
createdAt descending as the secondary key. -/
def taskLe (sortBy : String) (asc : Bool) (a b : Task) : Bool :=
  if sortBy = "createdAt" then decide (b.createdAt ≤ a.createdAt)
  else
    match fieldCmp sortBy a b with
    | .lt => asc
    | .gt => !asc
    | .eq => decide (b.createdAt ≤ a.createdAt)

def insSorted {α : Type} (le : α → α → Bool) (a : α) : List α → List α
  | [] => [a]
  | b :: bs => if le a b then a :: b :: bs else b :: insSorted le a bs

/-- Deterministic model of the sorted cursor. -/
def sortedBy {α : Type} (le : α → α → Bool) (l : List α) : List α :=
  l.foldr (insSorted le) []

/-- Cursor skip and limit. A NaN value, a negative skip or a non-positive
limit is owned by the driver and left outside the model. -/
def jsSkipTake (l : List Task) (skip limit : Option Int) : Option (List Task) :=
  match skip, limit with
  | some s, some m =>
    if 0 ≤ s ∧ 1 ≤ m then some ((l.drop s.toNat).take m.toNat) else none
  | _, _ => none

/-- Math.ceil(totalCount / limitNum) on the envelope; a NaN or
non-positive divisor leaves the integer model. -/
def jsMathCeil (n : Nat) (m : Option Int) : Option Int :=
  match m with
  | none => none
  | some l => if 0 < l then some (((n + l.toNat - 1) / l.toNat : Nat) : Int) else none

structure Pagination where
  currentPage : Option Int
  totalPages : Option Int
  totalItems : Nat
  itemsPerPage : Option Int
deriving Repr, DecidableEq

structure ListResp where
  status : Nat
  error : Bool
  message : String
  tasks : Option (List Task)
  pagination : Pagination
deriving Repr, DecidableEq

/-- Destructuring default of sortBy: createdAt when absent. -/
def sortFieldOf (q : ListQuery) : String :=
  match q.sortBy with | none => "createdAt" | some s => s

/-- Ascending exactly when the (defaulted) sortOrder equals asc. -/
def sortAscOf (q : ListQuery) : Bool :=
  (match q.sortOrder with | none => "desc" | some s => s) = "asc"

/-- The sorted cursor of the matching documents. -/
def sortedMatching (store : Store) (uid : String) (q : ListQuery) : List Task :=
  sortedBy (taskLe (sortFieldOf q) (sortAscOf q)) (store.filter (matchesQuery uid q))

/-- The list handler from the point where pageNum and limitNum have been
computed (source lines 202 and onward): find with sort, skip and limit in
parallel with countDocuments, then the envelope. -/
def listExec (store : Store) (uid : String) (q : ListQuery)
    (pageNum limitNum : Option Int) : ListResp :=
  { status := 200, error := false, message := "할 일 목록 조회에 성공했습니다.",
    tasks := jsSkipTake (sortedMatching store uid q)
      (jsMul (jsSub pageNum (some 1)) limitNum) limitNum,
    pagination :=
      { currentPage := pageNum,
        totalPages := jsMathCeil (store.filter (matchesQuery uid q)).length limitNum,
        totalItems := (store.filter (matchesQuery uid q)).length,
        itemsPerPage := limitNum } }

/-- GET /api/tasks: the destructuring defaults replace only absent page
and limit parameters (with the numbers 1 and 10, whose parseInt is exact),
a supplied string goes through parseInt unguarded. -/
def listTasks (store : Store) (uid : String) (q : ListQuery) : ListResp :=
  let pageNum := match q.page with | none => some (1 : Int) | some s => jsParseInt s
  let limitNum := match q.limit with | none => some (10 : Int) | some s => jsParseInt s
  listExec store uid q pageNum limitNum

/-! Concrete fixtures used to evaluate the routes at specific inputs. -/

def hexIdA : String := "0123456789abcdef01234567"

def hexIdB : String := "89abcdef0123456789abcdef"

def taskA : Task :=
  { _id := hexIdA, userId := "userA", title := "alpha", description := "", category := "개인",
    priority := 3, dueDate := none, completed := false, completedAt := none, tags := [],
    createdAt := 10, updatedAt := 10 }

def taskB : Task :=
  { _id := hexIdB, userId := "userB", title := "beta", description := "", category := "업무",
    priority := 2, dueDate := none, completed := true, completedAt := some 20, tags := [],
    createdAt := 20, updatedAt := 20 }

def emptyUpdateBody : UpdateBody :=
  { title := none, description := none, category := none, priority := none, dueDate := none,
    completed := none, tags := none, userId := none, completedAt := none, createdAt := none }

def emptyListQuery : ListQuery :=
  { completed := none, category := none, priority := none, dueDate := none, page := none,
    limit := none, sortBy := none, sortOrder := none }

def deactivatedUser : User :=
  { _id := "u1", email := "a@x.com", password := { salt := 1, pw := "secret1" }, name := "dana",
    subscription := "free", isActive := false, createdAt := 0, updatedAt := 0 }

def storedUser : User :=
  { _id := "u0", email := "a@x.com", password := { salt := 0, pw := "secret1" }, name := "amy",
    subscription := "free", isActive := true, createdAt := 0, updatedAt := 0 }

def adversarialCreateBody : CreateBody :=
  { title := some " hi ", description := none, category := none,
    priority := none, dueDate := none, tags := none, userId := some "evil",
    completed := some true, completedAt := some 7 }

def taskC : Task :=
  { _id := "aaaaaaaaaaaaaaaaaaaaaaaa", userId := "userA", title := "gamma", description := "",
    category := "학습", priority := 4, dueDate := none, completed := false, completedAt := none,
    tags := [], createdAt := 30, updatedAt := 30 }

def taskD : Task :=
  { _id := "bbbbbbbbbbbbbbbbbbbbbbbb", userId := "userA", title := "delta", description := "",
    category := "건강", priority := 1, dueDate := none, completed := true, completedAt := some 40,
    tags := [], createdAt := 40, updatedAt := 40 }

def updatedTaskA : Task := { taskA with title := "new title", updatedAt := 99 }

def cPayload : JwtPayload := { id := "u0", email := "a@x.com", exp := 604800 }

def tamperedToken : JwtToken := { payload := cPayload, sig := { secret := "evil", payload := cPayload } }

def expiredTokenFix : JwtToken := { payload := cPayload, sig := jwtSign "sec" cPayload }

def invalidCredsResp : AuthResp :=
  { status := 401, error := true, message := "이메일 또는 비밀번호가 올바르지 않습니다." }

def deactivatedResp : AuthResp :=
  { status := 401, error := true, message := "비활성화된 계정입니다. 관리자에게 문의해주세요." }

def duplicateEmailResp : AuthResp :=
  { status := 409, error := true, message := "이미 가입된 이메일 주소입니다." }

/-- The task t1 with the seven caller-updatable fields and updatedAt taken
from t2; an update frame is expressed as t2 = frameOf t1 t2, which pins
_id, userId, createdAt and completedAt to those of t1. -/
def frameOf (t1 t2 : Task) : Task :=
  { t1 with
    title := t2.title, description := t2.description, category := t2.category,
    priority := t2.priority, dueDate := t2.dueDate, completed := t2.completed,
    tags := t2.tags, updatedAt := t2.updatedAt }

/-! Helper lemmas about the list-level models. -/

theorem mem_insSorted {α : Type} (le : α → α → Bool) (a x : α) (l : List α) :
    x ∈ insSorted le a l ↔ x = a ∨ x ∈ l := by
  induction l with
  | nil => simp [insSorted]
  | cons b bs ih =>
    simp only [insSorted]
    split
    · simp
    · simp [ih]
      tauto

theorem mem_sortedBy {α : Type} (le : α → α → Bool) (x : α) (l : List α) :
    x ∈ sortedBy le l ↔ x ∈ l := by
  induction l with
  | nil => simp [sortedBy]
  | cons b bs ih =>
    simp only [sortedBy, List.foldr] at *
    rw [mem_insSorted, ih]
    simp

theorem length_insSorted {α : Type} (le : α → α → Bool) (a : α) (l : List α) :
    (insSorted le a l).length = l.length + 1 := by
  induction l with
  | nil => simp [insSorted]
  | cons b bs ih =>
    simp only [insSorted]
    split
    · simp
    · simp only [List.length_cons, ih]

theorem length_sortedBy {α : Type} (le : α → α → Bool) (l : List α) :
    (sortedBy le l).length = l.length := by
  induction l with
  | nil => simp [sortedBy]
  | cons b bs ih =>
    simp only [sortedBy, List.foldr] at *
    rw [length_insSorted, ih]
    simp

theorem mem_updateFirst {α : Type} (p : α → Bool) (f : α → α) (l : List α) (x : α) :
    x ∈ updateFirst p f l → x ∈ l ∨ ∃ b ∈ l, p b = true ∧ x = f b := by
  induction l with
  | nil => simp [updateFirst]
  | cons b bs ih =>
    simp only [updateFirst]
    split
    · intro hx
      rcases List.mem_cons.mp hx with h | h
      · exact Or.inr ⟨b, by simp, by assumption, h⟩
      · exact Or.inl (List.mem_cons.mpr (Or.inr h))
    · intro hx
      rcases List.mem_cons.mp hx with h | h
      · exact Or.inl (by simp [h])
      · rcases ih h with h2 | ⟨c, hc, hpc, hxc⟩
        · exact Or.inl (List.mem_cons.mpr (Or.inr h2))
        · exact Or.inr ⟨c, List.mem_cons.mpr (Or.inr hc), hpc, hxc⟩

theorem range_chunks_flatMap {α : Type} (L : Nat) (hL : 0 < L) :
    ∀ (n : Nat) (l : List α), l.length ≤ n →
      (List.range ((l.length + L - 1) / L)).flatMap (fun i => (l.drop (i * L)).take L) = l := by
  intro n
  induction n with
  | zero =>
    intro l hl
    have h0 : l = [] := List.length_eq_zero.mp (Nat.le_zero.mp hl)
    subst h0
    have hz : (List.length ([] : List α) + L - 1) / L = 0 := Nat.div_eq_of_lt (by simp; omega)
    rw [hz]
    simp
  | succ n ih =>
    intro l hl
    cases l with
    | nil =>
      have hz : (List.length ([] : List α) + L - 1) / L = 0 := Nat.div_eq_of_lt (by simp; omega)
      rw [hz]
      simp
    | cons a l2 =>
      have hm1 : 1 ≤ (a :: l2).length := by simp
      have hceil : ((a :: l2).length + L - 1) / L = (((a :: l2).drop L).length + L - 1) / L + 1 := by
        rw [List.length_drop]
        rcases Nat.le_total (a :: l2).length L with h | h
        · have h1 : (a :: l2).length - L = 0 := by omega
          rw [h1]
          have h2 : (0 + L - 1) / L = 0 := Nat.div_eq_of_lt (by omega)
          have h3 : ((a :: l2).length + L - 1) / L = 1 := by
            apply Nat.div_eq_of_lt_le
            · omega
            · omega
          omega
        · have h4 : (a :: l2).length + L - 1 = ((a :: l2).length - L + L - 1) + L := by omega
          rw [h4, Nat.add_div_right _ hL]
      rw [hceil, List.range_succ_eq_map, List.flatMap_cons]
      have hfm : (List.map Nat.succ (List.range ((((a :: l2).drop L).length + L - 1) / L))).flatMap
            (fun i => ((a :: l2).drop (i * L)).take L)
          = (List.range ((((a :: l2).drop L).length + L - 1) / L)).flatMap
            (fun i => (((a :: l2).drop L).drop (i * L)).take L) := by
        rw [List.flatMap_map]
        congr 1
        funext i
        conv_rhs => rw [List.drop_drop]
        have hmul2 : Nat.succ i * L = L + i * L := by
          rw [Nat.succ_mul]
          omega
        rw [hmul2]
      rw [hfm, ih ((a :: l2).drop L) (by simp only [List.length_cons, List.length_drop] at hl ⊢; omega)]
      have hd0 : ((a :: l2).drop (0 * L)).take L = (a :: l2).take L := by simp
      rw [hd0, List.take_append_drop]

theorem listExec_tasks_slice (store : Store) (uid : String) (q : ListQuery)
    (i L : Nat) (hL : 1 ≤ L) :
    (listExec store uid q (some ((i : Int) + 1)) (some (L : Int))).tasks
      = some (((sortedMatching store uid q).drop (i * L)).take L) := by
  simp only [listExec, jsSub, jsMul, jsSkipTake]
  have h1 : ((i : Int) + 1 - 1) * (L : Int) = ((i * L : Nat) : Int) := by
    push_cast
    ring
  rw [h1]
  rw [if_pos]
  · have h2 : ((i * L : Nat) : Int).toNat = i * L := Int.toNat_natCast _
    have h3 : ((L : Int)).toNat = L := Int.toNat_natCast _
    rw [h2, h3]
  · constructor
    · exact Int.natCast_nonneg _
    · exact_mod_cast hL

theorem matches_of_mem_listTasks (store : Store) (uid : String) (q : ListQuery)
    (ts : List Task) (x : Task)
    (hts : (listTasks store uid q).tasks = some ts) (hx : x ∈ ts) :
    matchesQuery uid q x = true := by
  simp only [listTasks, listExec] at hts
  unfold jsSkipTake at hts
  split at hts
  · split at hts
    · have hts2 := Option.some.inj hts
      subst hts2
      have hx2 : x ∈ sortedMatching store uid q :=
        List.drop_subset _ _ (List.take_subset _ _ hx)
      rw [sortedMatching, mem_sortedBy] at hx2
      exact List.of_mem_filter hx2
    · cases hts
  · cases hts

/-! Theorems. -/

/-- C2: the claim fails on the update path. PUT {completed:true} on a task
with completed=false and completedAt=null goes through findOneAndUpdate,
which runs no save middleware, so the stored and returned task has
completed=true while completedAt stays null, and PUT {completed:false} on
a completed task keeps its stale completedAt; the schema pre-save hook
embedded alongside shows the transition the code itself intends for a
save of the same document. -/
theorem completedAt_broken_by_update :
    ((putTaskById [taskA] "userA" hexIdA { emptyUpdateBody with completed := some true } 99).1.task.map
      (fun t => (t.completed, t.completedAt))) = some (true, none)
    ∧ ((putTaskById [taskB] "userB" hexIdB { emptyUpdateBody with completed := some false } 99).1.task.map
      (fun t => (t.completed, t.completedAt))) = some (false, some 20)
    ∧ (completedAtSaveHook true 99 { taskA with completed := true }).completedAt = some 99 := by
  decide

/-- C3: the claim fails on routing. DELETE /api/tasks/completed is taken by
the earlier-registered /:id route, whose id-shape guard rejects the
literal "completed" with 400 and leaves the store untouched, even when the
owner has a completed task; the shadowed /completed handler itself would
have deleted it and answered the count. -/
theorem deleteCompleted_shadowed_by_id_route :
    dispatchTasksDelete "completed" "userB" [taskB]
      = some ({ status := 400, error := true, message := "유효하지 않은 할 일 ID입니다.",
                task := none, deletedCount := none }, [taskB])
    ∧ (deleteCompletedTasks [taskB] "userB").1.deletedCount = some 1
    ∧ (deleteCompletedTasks [taskB] "userB").2 = [] := by
  decide

/-- C5 counterexample: with the only stored user deactivated and a wrong
password supplied, the password indeed mismatches, yet login answers the
account-deactivated message, not the invalid-credentials one, because the
isActive test precedes the password comparison. -/
theorem login_wrong_password_on_deactivated :
    comparePassword deactivatedUser.password "wrong" = false
    ∧ (postLogin [deactivatedUser] (some "a@x.com") (some "wrong") 9).1
      = { status := 401, error := true, message := "비활성화된 계정입니다. 관리자에게 문의해주세요." }
    ∧ ("비활성화된 계정입니다. 관리자에게 문의해주세요." : String)
        ≠ "이메일 또는 비밀번호가 올바르지 않습니다." := by
  decide

/-- C6 counterexample: the email " a@x.com" trims and lowercases to the
stored "a@x.com", yet registration answers 400 from the anchored format
regexp (whitespace never reaches the duplicate check), not 409; no user is
persisted. A case variant of a stored email is also shown to surface as
500 via the unique index rather than 409, since findOne compares the raw
string. -/
theorem register_duplicate_not_409 :
    jsTrim (jsLower " a@x.com") = "a@x.com"
    ∧ storedUser.email = "a@x.com"
    ∧ (postRegister [storedUser] (some "bob") (some " a@x.com") (some "secret1") 5 "u9" 7).1.status = 400
    ∧ (postRegister [storedUser] (some "bob") (some " a@x.com") (some "secret1") 5 "u9" 7).2 = [storedUser]
    ∧ (postRegister [storedUser] (some "bob") (some " a@x.com") (some "secret1") 5 "u9" 7).1.status ≠ 409
    ∧ (postRegister [storedUser] (some "bob") (some "A@x.com") (some "secret1") 5 "u9" 7).1.status = 500
    ∧ (postRegister [storedUser] (some "bob") (some "A@x.com") (some "secret1") 5 "u9" 7).2 = [storedUser] := by
  decide

/-- C8 counterexample: a list request with page=abc does not behave as if
page=1 and limit=10 had been supplied; parseInt gives NaN, which surfaces
as a NaN currentPage and a different response. -/
theorem malformed_page_not_defaulted :
    jsParseInt "abc" = none
    ∧ (listTasks [taskA] "userA" { emptyListQuery with page := some "abc" }).pagination.currentPage = none
    ∧ (listTasks [taskA] "userA"
        { emptyListQuery with page := some "1", limit := some "10" }).pagination.currentPage = some 1
    ∧ listTasks [taskA] "userA" { emptyListQuery with page := some "abc" }
        ≠ listTasks [taskA] "userA" { emptyListQuery with page := some "1", limit := some "10" } := by
  decide

/-- C10 counterexample: a successful title update also advances updatedAt
(timestamps schema option), a field outside the seven the claim allows to
change, so the claim as stated fails; ownership fields are the amended
theorem. -/
theorem update_touches_updatedAt :
    ((putTaskById [taskA] "userA" hexIdA { emptyUpdateBody with title := some "new title" } 99).1.task.map
      (fun t => (t.title, t.updatedAt))) = some ("new title", 99)
    ∧ taskA.updatedAt = 10
    ∧ (99 : Nat) ≠ 10 := by
  decide

/-- C1: ownership isolation. For a task belonging to owner A (well-formed
stored id, no other owner sharing it) and any distinct authenticated
caller B whose update body passes the field checks, get answers exactly
the 404 not-found response, update and delete answer it too while leaving
the store untouched, and no list response ever contains the task; no
branch of these handlers produces a 403. -/
theorem ownership_isolation (store : Store) (A B : String) (t : Task)
    (body : UpdateBody) (q : ListQuery) (now : Nat)
    (hmem : t ∈ store) (hA : t.userId = A) (hAB : A ≠ B)
    (hid : isValidObjectId t._id = true)
    (huniq : ∀ u ∈ store, u._id = t._id → u.userId = A)
    (hbody : putChecksOk body now = true) :
    getTaskById store B t._id = taskNotFoundResp
    ∧ taskNotFoundResp.status = 404
    ∧ putTaskById store B t._id body now = (taskNotFoundResp, store)
    ∧ deleteTaskById store B t._id
        = ({ status := 404, error := true, message := "할 일을 찾을 수 없습니다.",
             task := none, deletedCount := none }, store)
    ∧ (∀ ts, (listTasks store B q).tasks = some ts → t ∉ ts) := by
  have hnone : store.find? (fun u => decide (u._id = t._id) && decide (u.userId = B)) = none := by
    rw [List.find?_eq_none]
    intro u hu hpu
    rw [Bool.and_eq_true, decide_eq_true_eq, decide_eq_true_eq] at hpu
    exact hAB ((huniq u hu hpu.1).symm.trans hpu.2)
  have hpr : priorityRangeBad body.priority = false := by
    unfold putChecksOk at hbody
    rw [Bool.and_eq_true] at hbody
    rcases hbody with ⟨h1, _⟩
    simpa using h1
  obtain ⟨uf, hbf, hval⟩ :
      ∃ uf, buildUpdateFields body = some uf ∧ validateUpdateFields uf now = true := by
    unfold putChecksOk at hbody
    rw [Bool.and_eq_true] at hbody
    rcases hbody with ⟨_, h2⟩
    rcases hfb : buildUpdateFields body with _ | uf
    · rw [hfb] at h2
      cases h2
    · rw [hfb] at h2
      exact ⟨uf, rfl, h2⟩
  refine ⟨?_, rfl, ?_, ?_, ?_⟩
  · simp [getTaskById, hid, hnone]
  · simp [putTaskById, hid, hpr, hbf, hval, hnone]
  · simp [deleteTaskById, hid, hnone]
  · intro ts hts hmemts
    have hm := matches_of_mem_listTasks store B q ts t hts hmemts
    simp only [matchesQuery, Bool.and_eq_true] at hm
    have hub : t.userId = B := of_decide_eq_true hm.1.1.1.1
    exact hAB (hA.symm.trans hub)

theorem ownership_isolation_witness :
    getTaskById [taskA, taskB] "userB" hexIdA = taskNotFoundResp
    ∧ putTaskById [taskA, taskB] "userB" hexIdA emptyUpdateBody 0 = (taskNotFoundResp, [taskA, taskB])
    ∧ taskA ∉ [taskB] := by
  have h := ownership_isolation [taskA, taskB] "userA" "userB" taskA emptyUpdateBody
    emptyListQuery 0 (by decide) (by decide) (by decide) (by decide) (by decide) (by decide)
  exact ⟨h.1, h.2.2.1, h.2.2.2.2 [taskB] (by decide)⟩

/-- C4: a token freshly issued for a user verifies, within its seven-day
life, to that user's id and email; any token whose signature does not
recompute from the payload, or whose structure is malformed, is rejected
401 with the invalid-token message, and a correctly signed token past its
expiry is rejected 401 with the expired message. -/
theorem token_roundtrip_and_failures (u : User) (secret : String) (now later : Nat)
    (hfresh : later < now + 604800) :
    jwtVerify (.token (generateToken u secret now)) secret later = .ok u._id u.email
    ∧ (∀ (t : JwtToken) (v : Nat), t.sig ≠ jwtSign secret t.payload →
        authenticateToken (.bearer (.token t)) secret v = .reject 401 "유효하지 않은 토큰입니다.")
    ∧ (∀ (p : JwtPayload) (v : Nat), p.exp ≤ v →
        authenticateToken (.bearer (.token { payload := p, sig := jwtSign secret p })) secret v
          = .reject 401 "토큰이 만료되었습니다.")
    ∧ (∀ (s : String) (v : Nat),
        authenticateToken (.bearer (.malformed s)) secret v = .reject 401 "유효하지 않은 토큰입니다.") := by
  refine ⟨?_, ?_, ?_, ?_⟩
  · simp only [jwtVerify, generateToken]
    rw [if_neg (by simp), if_neg (by omega)]
  · intro t v ht
    simp [authenticateToken, jwtVerify, ht]
  · intro p v hp
    simp [authenticateToken, jwtVerify, hp]
  · intro s v
    simp [authenticateToken, jwtVerify]

theorem token_roundtrip_witness :
    jwtVerify (.token (generateToken storedUser "sec" 0)) "sec" 100 = .ok "u0" "a@x.com"
    ∧ authenticateToken (.bearer (.token tamperedToken)) "sec" 100
        = .reject 401 "유효하지 않은 토큰입니다."
    ∧ authenticateToken (.bearer (.token expiredTokenFix)) "sec" 604800
        = .reject 401 "토큰이 만료되었습니다."
    ∧ authenticateToken (.bearer (.malformed "zzz")) "sec" 0
        = .reject 401 "유효하지 않은 토큰입니다." := by
  have h := token_roundtrip_and_failures storedUser "sec" 0 100 (by omega)
  exact ⟨h.1, h.2.1 tamperedToken 100 (by decide), h.2.2.1 cPayload 604800 (by decide),
    h.2.2.2 "zzz" 0⟩

/-- C5 amended: an unknown email answers 401 invalid-credentials; a
password mismatch answers the same 401 with the byte-identical message
provided the account is active; for a deactivated account the 401
account-deactivated response is produced before the password is even
compared, so a password mismatch on such an account does not yield the
invalid-credentials message. -/
theorem login_error_taxonomy (store : List User) (em pw : String) (now : Nat)
    (hne : em ≠ "") (hnp : pw ≠ "") :
    (store.find? (fun u => decide (u.email = jsTrim (jsLower em))) = none →
       postLogin store (some em) (some pw) now = (invalidCredsResp, store))
    ∧ (∀ u, store.find? (fun v => decide (v.email = jsTrim (jsLower em))) = some u →
        u.isActive = true → comparePassword u.password pw = false →
        postLogin store (some em) (some pw) now = (invalidCredsResp, store))
    ∧ (∀ u, store.find? (fun v => decide (v.email = jsTrim (jsLower em))) = some u →
        u.isActive = false →
        postLogin store (some em) (some pw) now = (deactivatedResp, store)) := by
  refine ⟨?_, ?_, ?_⟩
  · intro h
    simp [postLogin, hne, hnp, h, invalidCredsResp]
  · intro u hu hact hcmp
    simp [postLogin, hne, hnp, hu, hact, hcmp, invalidCredsResp]
  · intro u hu hact
    simp [postLogin, hne, hnp, hu, hact, deactivatedResp]

theorem login_error_taxonomy_witness :
    postLogin [] (some "a@x.com") (some "secret1") 0 = (invalidCredsResp, [])
    ∧ postLogin [storedUser] (some "a@x.com") (some "wrong") 0 = (invalidCredsResp, [storedUser])
    ∧ postLogin [deactivatedUser] (some "a@x.com") (some "secret1") 0
        = (deactivatedResp, [deactivatedUser]) := by
  refine ⟨(login_error_taxonomy [] "a@x.com" "secret1" 0 (by decide) (by decide)).1 (by decide),
    (login_error_taxonomy [storedUser] "a@x.com" "wrong" 0 (by decide) (by decide)).2.1
      storedUser (by decide) (by decide) (by decide),
    (login_error_taxonomy [deactivatedUser] "a@x.com" "secret1" 0 (by decide) (by decide)).2.2
      deactivatedUser (by decide) (by decide)⟩

/-- C6 amended: a registration whose raw email string is already stored is
rejected 409 with no new user; any registration whose email after
lowercasing and trimming collides with a stored email is never persisted
and never succeeds, though for a collision that differs in case the
surfaced status is the 500 of the duplicate-key path, and one differing by
surrounding whitespace is rejected 400 by the format regexp. -/
theorem register_duplicate_guard (store : List User) (nm em pw : String) (now : Nat)
    (newId : String) (salt : Nat) :
    (nm ≠ "" → emailOk em = true → ¬ pw.length < 6 →
      (store.find? (fun u => decide (u.email = em))).isSome = true →
      postRegister store (some nm) (some em) (some pw) now newId salt
        = (duplicateEmailResp, store))
    ∧ ((∃ u ∈ store, u.email = jsTrim (jsLower em)) →
        (postRegister store (some nm) (some em) (some pw) now newId salt).2 = store
        ∧ (postRegister store (some nm) (some em) (some pw) now newId salt).1.status ≠ 201) := by
  constructor
  · intro hnm hem hpw hfind
    have hemne : em ≠ "" := by
      intro h
      rw [h] at hem
      exact absurd hem (by decide)
    have hpwne : pw ≠ "" := by
      intro h
      rw [h] at hpw
      simp at hpw
    simp [postRegister, hnm, hemne, hpwne, hem, hpw, hfind, duplicateEmailResp]
  · intro hdup
    have hany : store.any (fun u => decide (u.email = jsTrim (jsLower em))) = true := by
      rcases hdup with ⟨u, hu, hue⟩
      exact List.any_eq_true.mpr ⟨u, hu, by simp [hue]⟩
    simp only [postRegister]
    split
    · exact ⟨rfl, by simp⟩
    · split
      · exact ⟨rfl, by simp⟩
      · split
        · exact ⟨rfl, by simp⟩
        · split
          · exact ⟨rfl, by simp⟩
          · split
            · exact ⟨rfl, by simp⟩
            · simp [hany]

theorem register_duplicate_guard_witness :
    postRegister [storedUser] (some "bob") (some "a@x.com") (some "secret1") 0 "u9" 7
      = (duplicateEmailResp, [storedUser])
    ∧ (postRegister [storedUser] (some "bob") (some "A@x.com") (some "secret1") 0 "u9" 7).2
        = [storedUser]
    ∧ (postRegister [storedUser] (some "bob") (some "A@x.com") (some "secret1") 0 "u9" 7).1.status
        ≠ 201 := by
  have h1 := (register_duplicate_guard [storedUser] "bob" "a@x.com" "secret1" 0 "u9" 7).1
    (by decide) (by decide) (by decide) (by decide)
  have h2 := (register_duplicate_guard [storedUser] "bob" "A@x.com" "secret1" 0 "u9" 7).2
    ⟨storedUser, by decide, by decide⟩
  exact ⟨h1, h2.1, h2.2⟩

/-- C7: pagination invariant of the list route once pageNum and limitNum
are integers with page size L at least 1: the envelope reports totalPages
as the ceiling of matching-count over L and totalItems as the matching
count, and concatenating the task arrays of pages 1 through totalPages in
order reproduces the whole sorted result with no duplication or
omission. -/
theorem pagination_invariant (store : Store) (uid : String) (q : ListQuery)
    (L : Nat) (p : Int) (hL : 1 ≤ L) :
    (listExec store uid q (some p) (some (L : Int))).pagination.totalPages
        = some ((((store.filter (matchesQuery uid q)).length + L - 1) / L : Nat) : Int)
    ∧ (listExec store uid q (some p) (some (L : Int))).pagination.totalItems
        = (store.filter (matchesQuery uid q)).length
    ∧ (List.range (((store.filter (matchesQuery uid q)).length + L - 1) / L)).flatMap
        (fun i => ((listExec store uid q (some ((i : Int) + 1)) (some (L : Int))).tasks).getD [])
      = sortedMatching store uid q := by
  refine ⟨?_, ?_, ?_⟩
  · simp only [listExec, jsMathCeil]
    rw [if_pos (by exact_mod_cast hL)]
    simp
  · simp [listExec]
  · have hfun : (fun (i : Nat) =>
        ((listExec store uid q (some ((i : Int) + 1)) (some (L : Int))).tasks).getD ([] : List Task))
        = fun (i : Nat) => ((sortedMatching store uid q).drop (i * L)).take L := by
      funext i
      rw [listExec_tasks_slice store uid q i L hL]
      rfl
    rw [hfun]
    have hlen : (store.filter (matchesQuery uid q)).length = (sortedMatching store uid q).length := by
      rw [sortedMatching, length_sortedBy]
    rw [hlen]
    exact range_chunks_flatMap L (by omega) (sortedMatching store uid q).length
      (sortedMatching store uid q) (Nat.le_refl _)

theorem pagination_invariant_witness :
    (listExec [taskA, taskC, taskD] "userA" emptyListQuery (some 9) (some 2)).pagination.totalPages
        = some 2
    ∧ (listExec [taskA, taskC, taskD] "userA" emptyListQuery (some 9) (some 2)).pagination.totalItems
        = 3
    ∧ (List.range 2).flatMap
        (fun i => ((listExec [taskA, taskC, taskD] "userA" emptyListQuery
          (some ((i : Int) + 1)) (some 2)).tasks).getD [])
      = sortedMatching [taskA, taskC, taskD] "userA" emptyListQuery := by
  exact pagination_invariant [taskA, taskC, taskD] "userA" emptyListQuery 2 9 (by omega)

/-- C8 amended: absent page and limit parameters default to 1 and 10 and
the response carries the first ten sorted results; a supplied malformed
value instead parses to NaN, which propagates into the pagination metadata
and the cursor, so the response is not the page-1 size-10 one. -/
theorem pagination_defaults (store : Store) (uid : String) (q : ListQuery) :
    (q.page = none → q.limit = none →
      (listTasks store uid q).pagination.currentPage = some 1
      ∧ (listTasks store uid q).pagination.itemsPerPage = some 10
      ∧ (listTasks store uid q).tasks = some ((sortedMatching store uid q).take 10))
    ∧ (∀ s, q.page = some s → jsParseInt s = none →
        (listTasks store uid q).pagination.currentPage = none
        ∧ (listTasks store uid q).tasks = none)
    ∧ (∀ s, q.limit = some s → jsParseInt s = none →
        (listTasks store uid q).pagination.itemsPerPage = none
        ∧ (listTasks store uid q).pagination.totalPages = none
        ∧ (listTasks store uid q).tasks = none) := by
  refine ⟨?_, ?_, ?_⟩
  · intro hp hl
    simp [listTasks, hp, hl, listExec, jsSub, jsMul, jsSkipTake, jsMathCeil]
  · intro s hs hparse
    simp [listTasks, hs, hparse, listExec, jsSub, jsMul, jsSkipTake]
  · intro s hs hparse
    simp [listTasks, hs, hparse, listExec, jsSub, jsMul, jsSkipTake, jsMathCeil]

theorem pagination_defaults_witness :
    (listTasks [taskA] "userA" emptyListQuery).pagination.currentPage = some 1
    ∧ (listTasks [taskA] "userA" emptyListQuery).tasks
        = some ((sortedMatching [taskA] "userA" emptyListQuery).take 10)
    ∧ (listTasks [taskA] "userA" { emptyListQuery with page := some "abc" }).pagination.currentPage
        = none := by
  have h1 := (pagination_defaults [taskA] "userA" emptyListQuery).1 rfl rfl
  have h2 := (pagination_defaults [taskA] "userA" { emptyListQuery with page := some "abc" }).2.1
    "abc" rfl (by decide)
  exact ⟨h1.1, h1.2.2, h2.1⟩

/-- C9: whatever the request body carries, a create that succeeds stores
and returns a task owned by the authenticated caller with completed false
and completedAt unset, and every task the store gains satisfies this;
userId, completed and completedAt of the body are never read. -/
theorem create_scopes_owner_and_defaults (store : Store) (uid : String) (body : CreateBody)
    (now : Nat) (newId : String) :
    (∀ t, ((postTasks store uid body now newId).1).task = some t →
      t.userId = uid ∧ t.completed = false ∧ t.completedAt = none)
    ∧ (∀ t ∈ (postTasks store uid body now newId).2,
        t ∈ store ∨ (t.userId = uid ∧ t.completed = false ∧ t.completedAt = none)) := by
  constructor
  · intro t ht
    simp only [postTasks] at ht
    split at ht
    · simp [titleRequiredResp] at ht
    · split at ht
      · simp [priorityRangeResp] at ht
      · split at ht
        · simp [validationErrorResp] at ht
        · simp only [] at ht
          have := Option.some.inj ht
          subst this
          simp [builtTask]
  · intro t htm
    simp only [postTasks] at htm
    split at htm
    · exact Or.inl htm
    · split at htm
      · exact Or.inl htm
      · split at htm
        · exact Or.inl htm
        · simp only [] at htm
          rcases List.mem_append.mp htm with h | h
          · exact Or.inl h
          · have := List.mem_singleton.mp h
            subst this
            exact Or.inr (by simp [builtTask])

theorem create_scopes_witness :
    (builtTask "userA" adversarialCreateBody 50 hexIdA).userId = "userA"
    ∧ (builtTask "userA" adversarialCreateBody 50 hexIdA).completed = false
    ∧ (builtTask "userA" adversarialCreateBody 50 hexIdA).completedAt = none := by
  exact (create_scopes_owner_and_defaults [] "userA" adversarialCreateBody 50 hexIdA).1
    (builtTask "userA" adversarialCreateBody 50 hexIdA) (by decide)

/-- C10 amended: after any update request, every task in the store arises
from a previously stored task by changing at most title, description,
category, priority, dueDate, completed, tags and the automatic updatedAt
timestamp; in particular _id, userId, createdAt and completedAt are
unchanged, so ownership is immutable through the public update
interface. -/
theorem update_frame (store : Store) (uid taskId : String) (body : UpdateBody) (now : Nat) :
    ∀ t2 ∈ (putTaskById store uid taskId body now).2, ∃ t1 ∈ store,
      t2.userId = t1.userId ∧ t2.createdAt = t1.createdAt ∧ t2.completedAt = t1.completedAt
      ∧ t2._id = t1._id ∧ t2 = frameOf t1 t2 := by
  intro t2 ht
  have hself : ∀ h : t2 ∈ store, ∃ t1 ∈ store,
      t2.userId = t1.userId ∧ t2.createdAt = t1.createdAt ∧ t2.completedAt = t1.completedAt
      ∧ t2._id = t1._id ∧ t2 = frameOf t1 t2 := by
    intro h
    refine ⟨t2, h, rfl, rfl, rfl, rfl, ?_⟩
    cases t2
    rfl
  simp only [putTaskById] at ht
  split at ht
  · exact hself ht
  · split at ht
    · exact hself ht
    · split at ht
      · exact hself ht
      · split at ht
        · exact hself ht
        · split at ht
          · exact hself ht
          · rcases mem_updateFirst _ _ _ _ ht with h | ⟨b, hb, hpb, heq⟩
            · exact hself h
            · refine ⟨b, hb, ?_, ?_, ?_, ?_, ?_⟩ <;> subst heq <;> rfl

theorem update_frame_witness :
    ∃ t1 ∈ [taskA], updatedTaskA.userId = t1.userId ∧ updatedTaskA.createdAt = t1.createdAt
      ∧ updatedTaskA.completedAt = t1.completedAt ∧ updatedTaskA._id = t1._id
      ∧ updatedTaskA = frameOf t1 updatedTaskA := by
  exact update_frame [taskA] "userA" hexIdA { emptyUpdateBody with title := some "new title" } 99
    updatedTaskA (by decide)

end TaskFlow
